import Mathlib

/-!
Verification of the simulation core of a Flappy-Bird clone (macroquad / Rust).

The Rust source is shallowly embedded: `f32` values are modelled as exact
rationals (`ℚ`), `i32` counters as `ℤ`, vectors and rectangles as explicit
structures, and stateful methods as pure state-transforming functions.
The RNG (`rand::random_range`) and the file system are modelled as explicit
oracle inputs.  Rust's `%` on floats (remainder with the sign of the
dividend) is modelled by `fmodr` below.
-/

/-- Two-dimensional vector, modelling macroquad's `Vec2` (`f32` as `ℚ`). -/
structure Vec2 where
  x : ℚ
  y : ℚ
deriving DecidableEq, Repr

/-- Axis-aligned rectangle, modelling macroquad's `Rect` (`f32` as `ℚ`). -/
structure Rect where
  x : ℚ
  y : ℚ
  w : ℚ
  h : ℚ
deriving DecidableEq, Repr

/-- Constant `GRAVITY: f32 = 9.1` from `main.rs`. -/
def GRAVITY : ℚ := 91 / 10

/-- Constant `SCROLL_SPEED: f32 = 3.0` from `main.rs`. -/
def SCROLL_SPEED : ℚ := 3

/-- Embedding of `check_collision` from `src/systems/physics.rs`:
strict axis-aligned bounding-box overlap test. -/
def check_collision (rect1 rect2 : Rect) : Bool :=
  decide (rect1.x < rect2.x + rect2.w)
    && decide (rect1.x + rect1.w > rect2.x)
    && decide (rect1.y < rect2.y + rect2.h)
    && decide (rect1.y + rect1.h > rect2.y)

/-- Truncation of a rational toward zero, modelling Rust `f32::trunc`. -/
def ratTrunc (q : ℚ) : ℤ :=
  if q < 0 then -(⌊-q⌋) else ⌊q⌋

/-- Rust's float remainder `a % b`: `a - b * trunc (a / b)` (the result
has the sign of the dividend and may be negative). -/
def fmodr (a b : ℚ) : ℚ :=
  a - b * (ratTrunc (a / b) : ℚ)

/-- Embedding of `PipeGenerator` from `src/prefabs/pipes.rs`. -/
structure PipeGenerator where
  counter : ℤ
  enabled : Bool
deriving DecidableEq, Repr

/-- Embedding of `PipeGenerator::new`. -/
def PipeGenerator.new : PipeGenerator := ⟨0, false⟩

/-- Embedding of `PipeGenerator::start`. -/
def PipeGenerator.start (g : PipeGenerator) : PipeGenerator :=
  { g with enabled := true }

/-- Embedding of `PipeGenerator::stop`. -/
def PipeGenerator.stop (g : PipeGenerator) : PipeGenerator :=
  { g with enabled := false }

/-- Embedding of `PipeGenerator::should_spawn_pipe`; returns the `bool`
result together with the mutated generator state. -/
def PipeGenerator.should_spawn_pipe (g : PipeGenerator) : Bool × PipeGenerator :=
  if g.enabled then
    let c := g.counter + 1
    if c ≥ 80 then (true, { g with counter := 0 })
    else (false, { g with counter := c })
  else (false, g)

/-- State of the generator after `n` calls to `should_spawn_pipe`. -/
def genIterate (g : PipeGenerator) : ℕ → PipeGenerator
  | 0 => g
  | n + 1 => ((genIterate g n).should_spawn_pipe).2

/-- Result of the `(n+1)`-st call to `should_spawn_pipe` starting from `g`. -/
def genResult (g : PipeGenerator) (n : ℕ) : Bool :=
  ((genIterate g n).should_spawn_pipe).1

/-- Claim C5: starting from counter 0 with the generator enabled, the first
79 calls to `should_spawn_pipe` return `false`, exactly the 80th returns
`true` and leaves the counter at 0; any call while stopped returns `false`
and leaves the state unchanged; `start`/`stop` toggle `enabled` without
resetting the counter. -/
theorem pipeGenerator_spawn_spec :
    (∀ i : ℕ, i < 79 → genResult ⟨0, true⟩ i = false) ∧
    genResult ⟨0, true⟩ 79 = true ∧
    (genIterate ⟨0, true⟩ 80).counter = 0 ∧
    (∀ c : ℤ, (PipeGenerator.mk c false).should_spawn_pipe = (false, ⟨c, false⟩)) ∧
    (∀ g : PipeGenerator,
      (g.start).counter = g.counter ∧ (g.start).enabled = true ∧
      (g.stop).counter = g.counter ∧ (g.stop).enabled = false) := by
  refine ⟨by decide, by decide, by decide, ?_, ?_⟩
  · intro c
    simp [PipeGenerator.should_spawn_pipe]
  · intro g
    exact ⟨rfl, rfl, rfl, rfl⟩

/-- Claim C6: `check_collision a b` holds iff all four strict inequalities
hold; edge-touching rectangles do not collide; the test is symmetric. -/
theorem check_collision_spec :
    (∀ a b : Rect, check_collision a b = true ↔
      (a.x < b.x + b.w ∧ a.x + a.w > b.x ∧ a.y < b.y + b.h ∧ a.y + a.h > b.y)) ∧
    check_collision ⟨0, 0, 10, 10⟩ ⟨10, 0, 10, 10⟩ = false ∧
    check_collision ⟨0, 0, 10, 10⟩ ⟨5, 5, 10, 10⟩ = true ∧
    (∀ a b : Rect, check_collision a b = check_collision b a) := by
  refine ⟨?_, by norm_num [check_collision], by norm_num [check_collision], ?_⟩
  · intro a b
    simp [check_collision, and_assoc]
  · intro a b
    simp only [check_collision]
    rw [Bool.eq_iff_iff]
    simp only [Bool.and_eq_true, decide_eq_true_eq]
    constructor
    · rintro ⟨⟨⟨h1, h2⟩, h3⟩, h4⟩
      exact ⟨⟨⟨h2, h1⟩, h4⟩, h3⟩
    · rintro ⟨⟨⟨h1, h2⟩, h3⟩, h4⟩
      exact ⟨⟨⟨h2, h1⟩, h4⟩, h3⟩

/-- Absolute value on `ℚ`, written executably (`  |q|` of the claims). -/
def absQ (q : ℚ) : ℚ := if q < 0 then -q else q

lemma absQ_eq_abs (q : ℚ) : absQ q = |q| := by
  unfold absQ
  split
  · exact (abs_of_neg (by assumption)).symm
  · exact (abs_of_nonneg (by linarith [not_lt.mp (by assumption)])).symm

lemma absQ_nonneg (q : ℚ) : 0 ≤ absQ q := by
  rw [absQ_eq_abs]; exact abs_nonneg q

/-- If the dividend is smaller in magnitude than the (positive) divisor,
Rust's float remainder is the identity: no wrap happens. -/
lemma fmodr_eq_self {a b : ℚ} (h : absQ a < b) : fmodr a b = a := by
  have hb : 0 < b := lt_of_le_of_lt (absQ_nonneg a) h
  have habs : |a| < b := by rw [← absQ_eq_abs]; exact h
  obtain ⟨h1, h2⟩ := abs_lt.mp habs
  have hq1 : a / b < 1 := (div_lt_one hb).mpr h2
  have hq2 : -1 < a / b := by
    rw [neg_lt, ← neg_div]
    exact (div_lt_one hb).mpr (by linarith)
  have ht : ratTrunc (a / b) = 0 := by
    unfold ratTrunc
    by_cases hq : a / b < 0
    · rw [if_pos hq]
      have hz : ⌊-(a / b)⌋ = 0 :=
        Int.floor_eq_zero_iff.mpr (Set.mem_Ico.mpr ⟨by linarith, by linarith⟩)
      rw [hz]; ring
    · rw [if_neg hq]
      exact Int.floor_eq_zero_iff.mpr (Set.mem_Ico.mpr ⟨not_lt.mp hq, hq1⟩)
  unfold fmodr
  rw [ht]
  push_cast
  ring

/-- Embedding of `Background` from `src/prefabs/background.rs` (texture
handles are external; their widths are passed to `update` explicitly). -/
structure Background where
  forest_pos : ℚ
  cityscape_pos : ℚ
  cloud_pos : ℚ
  scroll : Bool
deriving DecidableEq, Repr

/-- Embedding of `Background::update`; the three layer widths come from the
externally loaded textures. -/
def Background.update (bg : Background)
    (forest_width cityscape_width cloud_width : ℚ) : Background :=
  if bg.scroll then
    { bg with
      forest_pos := fmodr (bg.forest_pos - SCROLL_SPEED * (3 / 4)) forest_width
      cityscape_pos := fmodr (bg.cityscape_pos - SCROLL_SPEED * (1 / 2)) cityscape_width
      cloud_pos := fmodr (bg.cloud_pos - SCROLL_SPEED * (1 / 4)) cloud_width }
  else bg

/-- Embedding of `Background::calculate_positions` (the pure helper the
repository added for its own tests). -/
def Background.calculate_positions
    (forest_pos cityscape_pos cloud_pos forest_width cityscape_width cloud_width : ℚ)
    (scroll : Bool) : ℚ × ℚ × ℚ :=
  if scroll then
    (fmodr (forest_pos - SCROLL_SPEED * (3 / 4)) forest_width,
     fmodr (cityscape_pos - SCROLL_SPEED * (1 / 2)) cityscape_width,
     fmodr (cloud_pos - SCROLL_SPEED * (1 / 4)) cloud_width)
  else (forest_pos, cityscape_pos, cloud_pos)

/-- Embedding of `Ground` from `src/prefabs/ground.rs` (texture external;
its width is passed to `update`). -/
structure Ground where
  scroll_pos : ℚ
  scroll : Bool
deriving DecidableEq, Repr

/-- Embedding of `Ground::update`. -/
def Ground.update (g : Ground) (texture_width : ℚ) : Ground :=
  if g.scroll then
    { g with scroll_pos := fmodr (g.scroll_pos - SCROLL_SPEED) texture_width }
  else g

/-- Embedding of `Ground::get_collision_rect`; screen size and the ground
texture height are external inputs. -/
def Ground.get_collision_rect (screen_w screen_h ground_height : ℚ) : Rect :=
  ⟨0, screen_h - ground_height, screen_w, ground_height⟩

/-- Claim C7: one scroll update maps each stored position `p` to
`(p - s) mod w` (ground at the full base speed, background layers at
0.75, 0.5, 0.25 of it), where `mod` is Rust's float remainder `fmodr`
whose result may be negative; with scrolling disabled positions are
unchanged. -/
theorem scroll_advance_spec :
    (∀ f c cl wf wc wcl : ℚ,
      Background.calculate_positions f c cl wf wc wcl true =
        (fmodr (f - SCROLL_SPEED * (3 / 4)) wf,
         fmodr (c - SCROLL_SPEED * (1 / 2)) wc,
         fmodr (cl - SCROLL_SPEED * (1 / 4)) wcl) ∧
      Background.calculate_positions f c cl wf wc wcl false = (f, c, cl)) ∧
    (∀ f c cl wf wc wcl : ℚ,
      (Background.mk f c cl true).update wf wc wcl =
        ⟨fmodr (f - SCROLL_SPEED * (3 / 4)) wf,
         fmodr (c - SCROLL_SPEED * (1 / 2)) wc,
         fmodr (cl - SCROLL_SPEED * (1 / 4)) wcl, true⟩ ∧
      (Background.mk f c cl false).update wf wc wcl = ⟨f, c, cl, false⟩) ∧
    (∀ p w : ℚ,
      (Ground.mk p true).update w = ⟨fmodr (p - SCROLL_SPEED) w, true⟩ ∧
      (Ground.mk p false).update w = ⟨p, false⟩) ∧
    fmodr (0 - SCROLL_SPEED) 112 < 0 := by
  refine ⟨?_, ?_, ?_, ?_⟩
  · intro f c cl wf wc wcl
    exact ⟨rfl, rfl⟩
  · intro f c cl wf wc wcl
    exact ⟨rfl, rfl⟩
  · intro p w
    exact ⟨rfl, rfl⟩
  · norm_num [fmodr, ratTrunc, SCROLL_SPEED]

/-- Claim C8 is refuted as stated: from the initial background state
(positions all 0, scrolling on), with a forest layer of width 2 and the
other widths 150 and 200, the very first update wraps the forest layer and
its per-tick change (magnitude 1/4) is smaller than the cityscape layer's
(magnitude 3/2). -/
theorem parallax_ordering_counterexample :
    ¬ (absQ (((Background.mk 0 0 0 true).update 2 150 200).forest_pos - 0) >
       absQ (((Background.mk 0 0 0 true).update 2 150 200).cityscape_pos - 0)) := by
  norm_num [Background.update, fmodr, ratTrunc, absQ, SCROLL_SPEED]

/-- Claim C8, amended: on any update tick where no layer wraps (each
decremented position is smaller in magnitude than its layer width, so the
float remainder is the identity), the per-tick changes of the stored
positions satisfy `|Δforest| > |Δcityscape| > |Δcloud|`. -/
theorem parallax_ordering_no_wrap (f c cl wf wc wcl : ℚ)
    (hf : absQ (f - SCROLL_SPEED * (3 / 4)) < wf)
    (hc : absQ (c - SCROLL_SPEED * (1 / 2)) < wc)
    (hcl : absQ (cl - SCROLL_SPEED * (1 / 4)) < wcl) :
    absQ (((Background.mk f c cl true).update wf wc wcl).forest_pos - f) >
      absQ (((Background.mk f c cl true).update wf wc wcl).cityscape_pos - c) ∧
    absQ (((Background.mk f c cl true).update wf wc wcl).cityscape_pos - c) >
      absQ (((Background.mk f c cl true).update wf wc wcl).cloud_pos - cl) := by
  have h1 := fmodr_eq_self hf
  have h2 := fmodr_eq_self hc
  have h3 := fmodr_eq_self hcl
  simp only [Background.update, if_pos]
  simp only [h1, h2, h3]
  constructor
  · norm_num [absQ, SCROLL_SPEED]
  · norm_num [absQ, SCROLL_SPEED]

/-- Witness for C8 (amended): the no-wrap tick from the initial state with
the repository's own test widths 100, 150, 200. -/
theorem parallax_ordering_no_wrap_witness :
    absQ (((Background.mk 0 0 0 true).update 100 150 200).forest_pos - 0) >
      absQ (((Background.mk 0 0 0 true).update 100 150 200).cityscape_pos - 0) ∧
    absQ (((Background.mk 0 0 0 true).update 100 150 200).cityscape_pos - 0) >
      absQ (((Background.mk 0 0 0 true).update 100 150 200).cloud_pos - 0) :=
  parallax_ordering_no_wrap 0 0 0 100 150 200
    (by norm_num [absQ, SCROLL_SPEED])
    (by norm_num [absQ, SCROLL_SPEED])
    (by norm_num [absQ, SCROLL_SPEED])

/-- Witness for C5: the first conjunct applied at a concrete call index. -/
theorem pipeGenerator_spawn_spec_witness : genResult ⟨0, true⟩ 5 = false :=
  pipeGenerator_spawn_spec.1 5 (by decide)

/-- Embedding of `Bird` from `src/prefabs/bird.rs`.  The texture list is
external; only its length (3 in `Bird::new`) matters for animation. -/
structure Bird where
  num_textures : ℕ
  current_frame : ℕ
  frame_timer : ℚ
  frame_duration : ℚ
  velocity : Vec2
  position : Vec2
  allow_gravity : Bool
  alive : Bool
  fixed_x_position : ℚ
deriving DecidableEq, Repr

/-- Embedding of `Bird::flap`. -/
def Bird.flap (b : Bird) : Bird :=
  if b.alive then { b with velocity := { b.velocity with y := -13 / 2 } } else b

/-- Embedding of `Bird::kill`. -/
def Bird.kill (b : Bird) : Bird :=
  { b with alive := false, velocity := ⟨0, 0⟩ }

/-- Embedding of `Bird::reset`; the screen height is external. -/
def Bird.reset (b : Bird) (screen_h : ℚ) : Bird :=
  { b with position := ⟨b.fixed_x_position, screen_h / 2⟩, velocity := ⟨0, 0⟩, alive := true }

/-- Embedding of `Bird::update`; the frame time (`get_frame_time`) and the
screen height are external inputs. -/
def Bird.update (b : Bird) (dt screen_h : ℚ) : Bird :=
  let b1 :=
    if b.frame_timer + dt ≥ b.frame_duration then
      { b with
        frame_timer := 0
        current_frame :=
          if b.alive then (b.current_frame + 1) % b.num_textures else b.current_frame }
    else { b with frame_timer := b.frame_timer + dt }
  if b1.allow_gravity then
    let vy := b1.velocity.y + GRAVITY / 30
    let y := b1.position.y + vy
    { b1 with
      velocity := { b1.velocity with y := vy }
      position := { b1.position with y := min (max y 12) (screen_h - 36) } }
  else b1

/-- Embedding of `Bird::get_collision_rect`. -/
def Bird.get_collision_rect (b : Bird) : Rect :=
  ⟨b.position.x, b.position.y, 34, 24⟩

/-- Embedding of the `PhysicsBody::collides_with` implementation for `Bird`. -/
def Bird.collides_with (b : Bird) (obj : Rect) : Bool :=
  check_collision b.get_collision_rect obj

/-- Embedding of `Pipe` from `src/prefabs/pipes.rs` (the drawing-only
`source_rect` field is omitted). -/
structure Pipe where
  position : Vec2
deriving DecidableEq, Repr

/-- Embedding of the `PhysicsBody::get_collision_rect` implementation for
`Pipe`. -/
def Pipe.get_collision_rect (p : Pipe) : Rect :=
  ⟨p.position.x, p.position.y, 54, 320⟩

/-- Embedding of the `PhysicsBody::collides_with` implementation for `Pipe`. -/
def Pipe.collides_with (p : Pipe) (obj : Rect) : Bool :=
  check_collision p.get_collision_rect obj

/-- Embedding of `PipeGroup` from `src/prefabs/pipes.rs`. -/
structure PipeGroup where
  top_pipe : Pipe
  bottom_pipe : Pipe
  position : Vec2
  alive : Bool
  enabled : Bool
  has_scored : Bool
deriving DecidableEq, Repr

/-- Constant `PipeGroup::GAP_SIZE = 160.0`. -/
def GAP_SIZE : ℚ := 160

/-- Constant `PipeGroup::PIPE_HEIGHT = 320.0`. -/
def PIPE_HEIGHT : ℚ := 320

/-- Embedding of `PipeGroup::new`. -/
def PipeGroup.new : PipeGroup :=
  ⟨⟨⟨0, 0⟩⟩, ⟨⟨0, 0⟩⟩, ⟨0, 0⟩, false, false, false⟩

/-- Embedding of `PipeGroup::update`. -/
def PipeGroup.update (g : PipeGroup) : PipeGroup :=
  let g1 :=
    if g.alive && g.enabled then
      { g with position := ⟨g.position.x - SCROLL_SPEED, g.position.y⟩ }
    else g
  if g1.position.x < -54 then { g1 with alive := false, enabled := false } else g1

/-- Embedding of `PipeGroup::reset`.  The RNG is modelled by the oracle
`draw`: `rng.random_range(lo..hi)` becomes `draw lo hi`, constrained by the
half-open range contract in the theorems that use it. -/
def PipeGroup.reset (g : PipeGroup) (x ground_y : ℚ) (draw : ℚ → ℚ → ℚ) : PipeGroup :=
  let min_gap_top : ℚ := 100
  let max_gap_top : ℚ := ground_y - GAP_SIZE - 100
  let gap_top := if max_gap_top > min_gap_top then draw min_gap_top max_gap_top else min_gap_top
  { g with
    position := ⟨x, 0⟩
    top_pipe := { position := ⟨g.top_pipe.position.x, gap_top - PIPE_HEIGHT⟩ }
    bottom_pipe := { position := ⟨g.bottom_pipe.position.x, gap_top + GAP_SIZE⟩ }
    alive := true
    enabled := true
    has_scored := false }

/-- Embedding of the `PhysicsBody::get_collision_rect` implementation for
`PipeGroup` (the degenerate all-zero rectangle). -/
def PipeGroup.get_collision_rect (_ : PipeGroup) : Rect :=
  ⟨0, 0, 0, 0⟩

/-- Embedding of the `PhysicsBody::collides_with` implementation for
`PipeGroup`: the bird rectangle is translated into the group's local space
and tested against the top and bottom pipes. -/
def PipeGroup.collides_with (g : PipeGroup) (obj : Rect) : Bool :=
  let relative_rect : Rect :=
    ⟨obj.x - g.position.x - 27, obj.y - g.position.y - 12, obj.w, obj.h⟩
  g.top_pipe.collides_with relative_rect || g.bottom_pipe.collides_with relative_rect

/-- Claim C1: after `reset x ground_y`, the group sits at `x` with
`alive`, `enabled` set and `has_scored` cleared; the gap top lies in
`[100, ground_y - 160 - 100]` when that range is non-degenerate (drawn by
the RNG from the half-open range) and equals the lower margin 100
otherwise; the top pipe sits at a strictly negative offset from the gap
top and the bottom pipe at a strictly positive one. -/
theorem pipeGroup_reset_spec (g : PipeGroup) (x ground_y : ℚ) (draw : ℚ → ℚ → ℚ)
    (hdraw : ∀ lo hi : ℚ, lo < hi → lo ≤ draw lo hi ∧ draw lo hi < hi) :
    (g.reset x ground_y draw).position.x = x ∧
    (g.reset x ground_y draw).position.y = 0 ∧
    (g.reset x ground_y draw).alive = true ∧
    (g.reset x ground_y draw).enabled = true ∧
    (g.reset x ground_y draw).has_scored = false ∧
    (∀ gap_top : ℚ,
      gap_top = (if ground_y - GAP_SIZE - 100 > 100 then
          draw 100 (ground_y - GAP_SIZE - 100) else 100) →
      (g.reset x ground_y draw).top_pipe.position.y = gap_top - PIPE_HEIGHT ∧
      (g.reset x ground_y draw).bottom_pipe.position.y = gap_top + GAP_SIZE ∧
      100 ≤ gap_top ∧
      (100 < ground_y - GAP_SIZE - 100 → gap_top ≤ ground_y - GAP_SIZE - 100) ∧
      (ground_y - GAP_SIZE - 100 ≤ 100 → gap_top = 100) ∧
      (g.reset x ground_y draw).top_pipe.position.y < gap_top ∧
      gap_top < (g.reset x ground_y draw).bottom_pipe.position.y) := by
  refine ⟨rfl, rfl, rfl, rfl, rfl, ?_⟩
  intro gap_top hgt
  by_cases hr : ground_y - GAP_SIZE - 100 > 100
  · have hd := hdraw 100 (ground_y - GAP_SIZE - 100) hr
    rw [if_pos hr] at hgt
    subst hgt
    refine ⟨?_, ?_, hd.1, fun _ => le_of_lt hd.2, fun hle => absurd hr (not_lt.mpr hle), ?_, ?_⟩
    · simp [PipeGroup.reset, if_pos hr]
    · simp [PipeGroup.reset, if_pos hr]
    · simp only [PipeGroup.reset, if_pos hr]
      norm_num [PIPE_HEIGHT]
    · simp only [PipeGroup.reset, if_pos hr]
      norm_num [GAP_SIZE]
  · rw [if_neg hr] at hgt
    subst hgt
    refine ⟨?_, ?_, le_refl _, fun hlt => absurd hlt hr, fun _ => rfl, ?_, ?_⟩
    · simp [PipeGroup.reset, if_neg hr]
    · simp [PipeGroup.reset, if_neg hr]
    · simp only [PipeGroup.reset, if_neg hr]
      norm_num [PIPE_HEIGHT]
    · simp only [PipeGroup.reset, if_neg hr]
      norm_num [GAP_SIZE]

/-- Witness for C1: a reset at `x = 300`, `ground_y = 600` with an RNG
oracle that returns the low end of the requested range. -/
theorem pipeGroup_reset_spec_witness :
    (PipeGroup.new.reset 300 600 (fun lo _ => lo)).position.x = 300 ∧
    (PipeGroup.new.reset 300 600 (fun lo _ => lo)).alive = true ∧
    (PipeGroup.new.reset 300 600 (fun lo _ => lo)).has_scored = false :=
  ⟨(pipeGroup_reset_spec PipeGroup.new 300 600 (fun lo _ => lo)
      (fun lo _ h => ⟨le_refl lo, h⟩)).1,
   (pipeGroup_reset_spec PipeGroup.new 300 600 (fun lo _ => lo)
      (fun lo _ h => ⟨le_refl lo, h⟩)).2.2.1,
   (pipeGroup_reset_spec PipeGroup.new 300 600 (fun lo _ => lo)
      (fun lo _ h => ⟨le_refl lo, h⟩)).2.2.2.2.1⟩

/-- The scoring condition of the pipes loop in `GameScene::update`:
`!pipe_group.has_scored && pipe_group.position.x + 27.0 <= bird.position.x`. -/
def scoresNow (bird_x : ℚ) (g : PipeGroup) : Bool :=
  !g.has_scored && decide (g.position.x + 27 ≤ bird_x)

/-- Embedding of the pipes loop in `GameScene::update` (the `!game_over`
branch): each pipe group that satisfies the scoring condition is marked
`has_scored` and increments the score by one, then every group is advanced
by `PipeGroup::update`. -/
def scoreAndUpdatePipes (bird_x : ℚ) : List PipeGroup → ℤ → List PipeGroup × ℤ
  | [], score => ([], score)
  | g :: gs, score =>
    let p := if scoresNow bird_x g
      then ({ g with has_scored := true }, score + 1)
      else (g, score)
    let rest := scoreAndUpdatePipes bird_x gs p.2
    (p.1.update :: rest.1, rest.2)

lemma pipeGroup_update_has_scored (g : PipeGroup) :
    (g.update).has_scored = g.has_scored := by
  simp only [PipeGroup.update]
  split <;> split <;> rfl

lemma scoreAndUpdatePipes_snd (bird_x : ℚ) :
    ∀ (pipes : List PipeGroup) (score : ℤ),
      (scoreAndUpdatePipes bird_x pipes score).2 =
        score + (pipes.countP (scoresNow bird_x) : ℤ)
  | [], score => by simp [scoreAndUpdatePipes]
  | g :: gs, score => by
    simp only [scoreAndUpdatePipes]
    by_cases h : scoresNow bird_x g = true
    · rw [if_pos h]
      rw [scoreAndUpdatePipes_snd bird_x gs (score + 1)]
      rw [List.countP_cons_of_pos _ _ h]
      push_cast
      ring
    · rw [if_neg h]
      rw [scoreAndUpdatePipes_snd bird_x gs score]
      rw [List.countP_cons_of_neg _ _ (by simpa using h)]

lemma scoreAndUpdatePipes_fst (bird_x : ℚ) :
    ∀ (pipes : List PipeGroup) (score : ℤ),
      (scoreAndUpdatePipes bird_x pipes score).1 =
        pipes.map (fun g =>
          (if scoresNow bird_x g then { g with has_scored := true } else g).update)
  | [], _ => by simp [scoreAndUpdatePipes]
  | g :: gs, score => by
    by_cases h : scoresNow bird_x g = true
    · simp [scoreAndUpdatePipes, h, scoreAndUpdatePipes_fst bird_x gs]
    · simp [scoreAndUpdatePipes, h, scoreAndUpdatePipes_fst bird_x gs]

/-- Claim C2: one pass of the (not-game-over) pipes loop adds to the score
exactly the number of pipe groups that have not yet scored and whose
leading edge `position.x + 27` has passed the bird's column; exactly those
groups flip `has_scored` to `true`, `has_scored` never reverts (so a group
scores at most once between `reset` calls); a group at `x = 70` (edge 97)
scores for any bird column `c ≥ 97`, while a group at `x = 80` (edge 107)
does not score for bird column 100. -/
theorem gameScene_score_update_spec (bird_x : ℚ) (pipes : List PipeGroup)
    (score : ℤ) (c : ℚ) (hc : 97 ≤ c) :
    (scoreAndUpdatePipes bird_x pipes score).2 =
      score + (pipes.countP (scoresNow bird_x) : ℤ) ∧
    (scoreAndUpdatePipes bird_x pipes score).1 =
      pipes.map (fun g =>
        (if scoresNow bird_x g then { g with has_scored := true } else g).update) ∧
    (∀ g : PipeGroup,
      ((if scoresNow bird_x g then { g with has_scored := true } else g).update).has_scored
        = (g.has_scored || scoresNow bird_x g)) ∧
    (∀ g : PipeGroup, scoresNow bird_x g = true → g.has_scored = false) ∧
    (∀ g : PipeGroup, g.position.x = 70 → g.has_scored = false → scoresNow c g = true) ∧
    (∀ g : PipeGroup, g.position.x = 80 → scoresNow 100 g = false) := by
  refine ⟨scoreAndUpdatePipes_snd bird_x pipes score,
    scoreAndUpdatePipes_fst bird_x pipes score, ?_, ?_, ?_, ?_⟩
  · intro g
    by_cases h : scoresNow bird_x g = true
    · rw [if_pos h, pipeGroup_update_has_scored, h, Bool.or_true]
    · simp [if_neg h, pipeGroup_update_has_scored, Bool.eq_false_iff.mpr h]
  · intro g h
    simp only [scoresNow, Bool.and_eq_true, Bool.not_eq_true', decide_eq_true_eq] at h
    exact h.1
  · intro g hx hs
    have : (70 : ℚ) + 27 ≤ c := by linarith
    simp [scoresNow, hx, hs, this]
  · intro g hx
    have : ¬((80 : ℚ) + 27 ≤ 100) := by norm_num
    simp [scoresNow, hx, this]

/-- Witness for C2: the loop run on a single freshly constructed group
(at `x = 0`, unscored) with the bird column at 100. -/
theorem gameScene_score_update_spec_witness :
    (scoreAndUpdatePipes 100 [PipeGroup.new] 0).2 =
      0 + (([PipeGroup.new].countP (scoresNow 100) : ℕ) : ℤ) :=
  (gameScene_score_update_spec 100 [PipeGroup.new] 0 100 (by norm_num)).1

/-- Embedding of `GameScene` from `src/scenes/game.rs`.  Textures, sounds
and the font are external and omitted; `storage_writes` logs the values
passed to `storage::write` (an external effect of the scene); the
scoreboard is display-only and omitted. -/
structure GameScene where
  background : Background
  ground : Ground
  bird : Bird
  score : ℤ
  highscore : ℤ
  is_mouse_down : Bool
  instructions_visible : Bool
  pipes : List PipeGroup
  game_over : Bool
  pipe_generator : PipeGenerator
  storage_writes : List ℤ
deriving DecidableEq, Repr

/-- Embedding of the first half of `GameScene::check_for_collisions`
(the obstacle-collision handler): if the bird is alive and overlaps any
pipe group, kill the bird, stop the generator, stop both scrolling layers
and disable every pipe group.  `game_over` is not touched. -/
def GameScene.pipeCollisionStep (s : GameScene) : GameScene :=
  if s.bird.alive && s.pipes.any (fun g => g.collides_with s.bird.get_collision_rect) then
    { s with
      bird := s.bird.kill
      pipe_generator := s.pipe_generator.stop
      background := { s.background with scroll := false }
      ground := { s.ground with scroll := false }
      pipes := s.pipes.map (fun g => { g with enabled := false }) }
  else s

/-- Embedding of the second half of `GameScene::check_for_collisions`
(the ground-collision handler), run only while not yet game-over: kill the
bird, disable its gravity, stop scrolling, set game-over, stop the
generator, persist the highscore when `score >= highscore`, and disable
every pipe group. -/
def GameScene.groundCollisionStep (s : GameScene) (ground_rect : Rect) : GameScene :=
  if !s.game_over && s.bird.collides_with ground_rect then
    let s1 := { s with
      bird := { s.bird.kill with allow_gravity := false }
      background := { s.background with scroll := false }
      ground := { s.ground with scroll := false }
      game_over := true
      pipe_generator := s.pipe_generator.stop }
    let s2 := if s1.score ≥ s1.highscore then
        { s1 with
          highscore := s1.score
          storage_writes := s1.storage_writes ++ [s1.score] }
      else s1
    { s2 with pipes := s2.pipes.map (fun g => { g with enabled := false }) }
  else s

/-- Embedding of `GameScene::check_for_collisions`: the obstacle handler
followed by the ground handler. -/
def GameScene.check_for_collisions (s : GameScene) (ground_rect : Rect) : GameScene :=
  (s.pipeCollisionStep).groundCollisionStep ground_rect

lemma mem_map_disable {l : List PipeGroup} {g : PipeGroup}
    (h : g ∈ l.map (fun p => { p with enabled := false })) : g.enabled = false := by
  rcases List.mem_map.mp h with ⟨a, _, rfl⟩
  rfl

lemma pipeCollisionStep_preserves (s : GameScene) :
    (s.pipeCollisionStep).game_over = s.game_over ∧
    (s.pipeCollisionStep).score = s.score ∧
    (s.pipeCollisionStep).highscore = s.highscore ∧
    (s.pipeCollisionStep).storage_writes = s.storage_writes ∧
    (s.pipeCollisionStep).bird.position = s.bird.position := by
  unfold GameScene.pipeCollisionStep
  split <;> exact ⟨rfl, rfl, rfl, rfl, rfl⟩

lemma collides_with_of_position_eq {b b' : Bird} (h : b.position = b'.position) (r : Rect) :
    b.collides_with r = b'.collides_with r := by
  unfold Bird.collides_with Bird.get_collision_rect
  rw [h]

lemma groundCollisionStep_spec (s : GameScene) (ground_rect : Rect)
    (hgo : s.game_over = false) (hcol : s.bird.collides_with ground_rect = true) :
    s.groundCollisionStep ground_rect =
      { s with
        bird := { s.bird.kill with allow_gravity := false }
        background := { s.background with scroll := false }
        ground := { s.ground with scroll := false }
        game_over := true
        pipe_generator := s.pipe_generator.stop
        highscore := if s.score ≥ s.highscore then s.score else s.highscore
        storage_writes :=
          s.storage_writes ++ (if s.score ≥ s.highscore then [s.score] else [])
        pipes := s.pipes.map (fun g => { g with enabled := false }) } := by
  unfold GameScene.groundCollisionStep
  rw [hgo, hcol]
  simp only [Bool.not_false, Bool.and_self, if_true]
  by_cases hsc : s.score ≥ s.highscore
  · simp only [if_pos hsc]
  · simp only [if_neg hsc, List.append_nil]

/-- Claim C3: whenever the game is not yet over and the bird overlaps the
ground rectangle, `check_for_collisions` kills the bird (alive false,
velocity zeroed), disables its gravity, stops both scrolling layers and
the generator, sets `game_over`, disables every pipe group, and appends
exactly one `storage::write` of the score iff `score >= highscore`. -/
theorem gameScene_ground_collision_spec (s : GameScene) (ground_rect : Rect)
    (hgo : s.game_over = false)
    (hcol : s.bird.collides_with ground_rect = true) :
    (s.check_for_collisions ground_rect).bird.alive = false ∧
    (s.check_for_collisions ground_rect).bird.velocity = ⟨0, 0⟩ ∧
    (s.check_for_collisions ground_rect).bird.allow_gravity = false ∧
    (s.check_for_collisions ground_rect).background.scroll = false ∧
    (s.check_for_collisions ground_rect).ground.scroll = false ∧
    (s.check_for_collisions ground_rect).pipe_generator.enabled = false ∧
    (s.check_for_collisions ground_rect).game_over = true ∧
    (∀ g ∈ (s.check_for_collisions ground_rect).pipes, g.enabled = false) ∧
    (s.check_for_collisions ground_rect).storage_writes =
      s.storage_writes ++ (if s.score ≥ s.highscore then [s.score] else []) ∧
    (s.check_for_collisions ground_rect).highscore =
      (if s.score ≥ s.highscore then s.score else s.highscore) := by
  have hp := pipeCollisionStep_preserves s
  have hgo1 : (s.pipeCollisionStep).game_over = false := hp.1.trans hgo
  have hcol1 : (s.pipeCollisionStep).bird.collides_with ground_rect = true :=
    (collides_with_of_position_eq hp.2.2.2.2 ground_rect).trans hcol
  have hg := groundCollisionStep_spec (s.pipeCollisionStep) ground_rect hgo1 hcol1
  unfold GameScene.check_for_collisions
  rw [hg]
  refine ⟨rfl, rfl, rfl, rfl, rfl, rfl, rfl, ?_, ?_, ?_⟩
  · intro g hgmem
    exact mem_map_disable hgmem
  · show (s.pipeCollisionStep).storage_writes ++
      (if (s.pipeCollisionStep).score ≥ (s.pipeCollisionStep).highscore
        then [(s.pipeCollisionStep).score] else []) =
      s.storage_writes ++ (if s.score ≥ s.highscore then [s.score] else [])
    rw [hp.2.1, hp.2.2.1, hp.2.2.2.1]
  · show (if (s.pipeCollisionStep).score ≥ (s.pipeCollisionStep).highscore
        then (s.pipeCollisionStep).score else (s.pipeCollisionStep).highscore) =
      (if s.score ≥ s.highscore then s.score else s.highscore)
    rw [hp.2.1, hp.2.2.1]

lemma bird_update_velocity (b : Bird) (dt sh : ℚ) (hg : b.allow_gravity = true) :
    (b.update dt sh).velocity.y = b.velocity.y + GRAVITY / 30 := by
  simp only [Bird.update]
  split <;> simp [hg]

/-- Claim C4: whenever the bird is alive and overlaps some pipe group, the
obstacle-collision handler kills the bird, stops the generator, disables
both scrolling layers and every pipe group, but leaves `game_over` false
and `allow_gravity` unchanged; hence a pipe-killed bird whose gravity was
on still integrates gravity on the next `Bird::update`. -/
theorem gameScene_pipe_collision_spec (s : GameScene)
    (halive : s.bird.alive = true)
    (hgo : s.game_over = false)
    (hcol : ∃ g ∈ s.pipes, g.collides_with s.bird.get_collision_rect = true) :
    (s.pipeCollisionStep).bird.alive = false ∧
    (s.pipeCollisionStep).bird.velocity = ⟨0, 0⟩ ∧
    (s.pipeCollisionStep).pipe_generator.enabled = false ∧
    (s.pipeCollisionStep).background.scroll = false ∧
    (s.pipeCollisionStep).ground.scroll = false ∧
    (∀ g ∈ (s.pipeCollisionStep).pipes, g.enabled = false) ∧
    (s.pipeCollisionStep).game_over = false ∧
    (s.pipeCollisionStep).bird.allow_gravity = s.bird.allow_gravity ∧
    (s.pipeCollisionStep).score = s.score ∧
    (∀ dt sh : ℚ, s.bird.allow_gravity = true →
      (((s.pipeCollisionStep).bird).update dt sh).velocity.y = GRAVITY / 30) := by
  have hany : (s.bird.alive &&
      s.pipes.any (fun g => g.collides_with s.bird.get_collision_rect)) = true := by
    rw [halive, Bool.true_and, List.any_eq_true]
    exact hcol
  unfold GameScene.pipeCollisionStep
  rw [if_pos hany]
  refine ⟨rfl, rfl, rfl, rfl, rfl, ?_, hgo, rfl, rfl, ?_⟩
  · intro g hgmem
    exact mem_map_disable hgmem
  · intro dt sh hag
    rw [bird_update_velocity (s.bird.kill) dt sh hag]
    show (0 : ℚ) + GRAVITY / 30 = GRAVITY / 30
    ring

/-- Witness for C4: a concrete scene whose bird at (100, 300) overlaps the
single pipe group at x = 73. -/
theorem gameScene_pipe_collision_spec_witness :
    ((GameScene.mk ⟨0, 0, 0, true⟩ ⟨0, true⟩
        ⟨3, 0, 0, 1 / 10, ⟨0, 0⟩, ⟨100, 300⟩, true, true, 100⟩ 0 3 false false
        [⟨⟨⟨0, 0⟩⟩, ⟨⟨0, 0⟩⟩, ⟨73, 0⟩, true, true, false⟩] false ⟨0, true⟩
        []).pipeCollisionStep).bird.alive = false :=
  (gameScene_pipe_collision_spec _ rfl rfl
    ⟨⟨⟨⟨0, 0⟩⟩, ⟨⟨0, 0⟩⟩, ⟨73, 0⟩, true, true, false⟩, by simp,
      by norm_num [PipeGroup.collides_with, Pipe.collides_with, Pipe.get_collision_rect,
        Bird.get_collision_rect, check_collision]⟩).1

/-- Witness for C3: a concrete scene whose bird at (100, 480) overlaps the
ground rectangle (0, 488, 800, 112). -/
theorem gameScene_ground_collision_spec_witness :
    ((GameScene.mk ⟨0, 0, 0, true⟩ ⟨0, true⟩
        ⟨3, 0, 0, 1 / 10, ⟨0, 0⟩, ⟨100, 480⟩, true, true, 100⟩ 5 3 false false
        [] false ⟨0, true⟩ []).check_for_collisions ⟨0, 488, 800, 112⟩).game_over = true :=
  (gameScene_ground_collision_spec _ ⟨0, 488, 800, 112⟩ rfl
    (by norm_num [Bird.collides_with, Bird.get_collision_rect,
      check_collision])).2.2.2.2.2.2.1

/-- Model of Rust `str::trim` over a character list: remove whitespace
from both ends. -/
def trimChars (cs : List Char) : List Char :=
  ((cs.dropWhile Char.isWhitespace).reverse.dropWhile Char.isWhitespace).reverse

/-- Value of an ASCII digit character, `none` otherwise. -/
def digitVal? (c : Char) : Option ℕ :=
  if c.isDigit then some (c.toNat - 48) else none

def parseDigitsAux : List Char → ℕ → Option ℕ
  | [], acc => some acc
  | c :: cs, acc =>
    match digitVal? c with
    | some d => parseDigitsAux cs (acc * 10 + d)
    | none => none

/-- Model of Rust `str::parse::<i32>()` on the trimmed content: an optional
sign followed by one or more ASCII digits, within the `i32` range;
anything else fails. -/
def parseI32? (cs : List Char) : Option ℤ :=
  let sr : ℤ × List Char :=
    match cs with
    | '+' :: r => (1, r)
    | '-' :: r => (-1, r)
    | r => (1, r)
  match sr.2 with
  | [] => none
  | _ =>
    match parseDigitsAux sr.2 0 with
    | some n =>
      let v : ℤ := sr.1 * n
      if -2147483648 ≤ v ∧ v ≤ 2147483647 then some v else none
    | none => none

/-- Outcome of `fs::read_to_string` on the highscore file, the external
input of `storage::read`. -/
inductive ReadFileResult where
  | found : List Char → ReadFileResult
  | notFound : ReadFileResult
  | otherErr : ReadFileResult
deriving DecidableEq, Repr

/-- Error outcomes of `storage::read`: a parse failure surfaced as
`InvalidData`, or a propagated I/O error other than `NotFound`. -/
inductive StorageErr where
  | invalidData : StorageErr
  | ioErr : StorageErr
deriving DecidableEq, Repr

/-- Embedding of `storage::read` from `src/systems/storage.rs`: a missing
file yields `Ok(0)`; existing content is trimmed and parsed, a parse
failure becoming an `InvalidData` error; other I/O errors propagate. -/
def storage.read (fs : ReadFileResult) : Except StorageErr ℤ :=
  match fs with
  | .found content =>
    match parseI32? (trimChars content) with
    | some n => .ok n
    | none => .error .invalidData
  | .notFound => .ok 0
  | .otherErr => .error .ioErr

/-- Claim C9: `storage::read` returns `Ok 0` on a missing file, an error
when the file exists but its trimmed content does not parse as a decimal
integer, and `Ok n` when the trimmed content parses as `n`. -/
theorem storage_read_spec :
    storage.read .notFound = .ok 0 ∧
    (∀ content : List Char, parseI32? (trimChars content) = none →
      storage.read (.found content) = .error .invalidData) ∧
    (∀ (content : List Char) (n : ℤ), parseI32? (trimChars content) = some n →
      storage.read (.found content) = .ok n) := by
  refine ⟨rfl, ?_, ?_⟩
  · intro content h
    simp [storage.read, h]
  · intro content n h
    simp [storage.read, h]

/-- Witness for C9: the content `" 42 "` parses to 42 and `"abc"` fails. -/
theorem storage_read_spec_witness :
    storage.read (.found [' ', '4', '2', ' ']) = .ok 42 ∧
    storage.read (.found ['a', 'b', 'c']) = .error .invalidData :=
  ⟨storage_read_spec.2.2 [' ', '4', '2', ' '] 42 (by decide),
   storage_read_spec.2.1 ['a', 'b', 'c'] (by decide)⟩

/-- Claim C10 is refuted as stated: the degenerate collision rectangle
`Rect(0,0,0,0)` of a pipe group does overlap a rectangle whose interior
strictly contains the origin, such as `Rect(-1,-1,2,2)`. -/
theorem pipeGroup_collision_rect_counterexample :
    check_collision (PipeGroup.new.get_collision_rect) ⟨-1, -1, 2, 2⟩ = true := by
  norm_num [PipeGroup.get_collision_rect, check_collision]

/-- Claim C10, amended: `get_collision_rect` of every pipe group is the
degenerate `Rect(0,0,0,0)`, which under `check_collision` overlaps exactly
the rectangles whose interior strictly contains the origin (not "nothing");
the capability relation `collides_with r = check_collision
(get_collision_rect) r` still fails in both directions at concrete
inputs. -/
theorem pipeGroup_collision_rect_spec :
    (∀ g : PipeGroup, g.get_collision_rect = ⟨0, 0, 0, 0⟩) ∧
    (∀ (g : PipeGroup) (r : Rect), check_collision g.get_collision_rect r = true ↔
      (r.x < 0 ∧ 0 < r.x + r.w ∧ r.y < 0 ∧ 0 < r.y + r.h)) ∧
    (∃ (g : PipeGroup) (r : Rect),
      g.collides_with r = true ∧ check_collision g.get_collision_rect r = false) ∧
    (∃ (g : PipeGroup) (r : Rect),
      check_collision g.get_collision_rect r = true ∧ g.collides_with r = false) := by
  refine ⟨fun g => rfl, ?_, ?_, ?_⟩
  · intro g r
    simp only [PipeGroup.get_collision_rect, check_collision, Bool.and_eq_true,
      decide_eq_true_eq, gt_iff_lt, and_assoc, zero_add, add_zero]
    constructor
    · rintro ⟨h1, h2, h3, h4⟩
      exact ⟨h2, h1, h4, h3⟩
    · rintro ⟨h1, h2, h3, h4⟩
      exact ⟨h2, h1, h4, h3⟩
  · refine ⟨⟨⟨⟨0, 0⟩⟩, ⟨⟨0, 0⟩⟩, ⟨73, 0⟩, true, true, false⟩, ⟨100, 300, 34, 24⟩, ?_, ?_⟩
    · norm_num [PipeGroup.collides_with, Pipe.collides_with, Pipe.get_collision_rect,
        check_collision]
    · norm_num [PipeGroup.get_collision_rect, check_collision]
  · refine ⟨PipeGroup.new, ⟨-1, -1, 2, 2⟩, ?_, ?_⟩
    · norm_num [PipeGroup.get_collision_rect, PipeGroup.new, check_collision]
    · norm_num [PipeGroup.collides_with, Pipe.collides_with, Pipe.get_collision_rect,
        PipeGroup.new, check_collision]
